import Mathlib

/-!
Verification of the SpeechAnalysisAssistant repository.

This file gives a shallow embedding of the two analyze-and-render
workflows of the repository (the `src/app/page.tsx` `Home` component with
its `analyze` flow over `src/ai/flows/schemas.ts`, and the
`src/components/speech-analysis-client.tsx` `SpeechAnalysisClient`
component with its `analyzeSpeech` flow), of the upload and
speech-recognition event handlers, of the zod number schemas guarding the
criterion scores, of the transcription renderers (UI and PDF), and of the
`encodeWAV` routine of `src/lib/pdf.ts`.  Theorems about these
definitions settle the frozen claims about the specification.

Browser blobs and files are modelled by their contents as strings; the
`FileReader.readAsDataURL` conversion is an abstract parameter
`enc : String → String`.  Toasts are explicit output lists, React state
updates are explicit record updates, and the single remote inference
call per handler is reified as a constructor of the handler result type,
so that `never invokes the remote call` is `the result is not that
constructor`.
-/

/-- Analysis mode of `page.tsx` (`type AnalysisMode`). -/
inductive AnalysisMode where
  | presentation
  | interview
  | practice
deriving DecidableEq, Repr

/-- Input mode of `page.tsx` (`type InputMode = 'live' | 'audio' | 'upload'`). -/
inductive InputMode where
  | live
  | audio
  | upload
deriving DecidableEq, Repr

/-- A browser `File`: name plus MIME type plus contents (contents stand in
for the binary payload). Models the `File` objects handled by
`handleFileSelect` / `handleFileChange`. -/
structure JsFile where
  name : String
  mime : String
  content : String
deriving DecidableEq, Repr

/-- A toast raised through `useToast` in `page.tsx`: title and description. -/
structure PageToast where
  title : String
  description : String
deriving DecidableEq, Repr

/-- The model output object as used by `page.tsx` (`AnalyzeSpeechOutput` of
`schemas.ts`); only the `transcription` field is inspected by the
orchestration code, the rest is opaque render data. -/
structure PageOutput where
  transcription : Option String := none
deriving DecidableEq, Repr

/-- The component state of `Home` in `page.tsx`: the `useState` hooks the
analyzed claims depend on. -/
structure PageState where
  analysisMode : AnalysisMode
  inputMode : InputMode
  question : String
  perfectAnswer : String
  transcript : String
  audioBlob : Option String
  audioFile : Option JsFile
  audioUrl : Option String
  analysisResult : Option PageOutput
  isAnalyzing : Bool
  isLiveRecording : Bool
  isAudioRecording : Bool
  isSupported : Bool
deriving DecidableEq, Repr

/-- The request record built by `handleAnalyze` in `page.tsx` and checked by
`AnalyzeInputSchema` in `schemas.ts`; `mode` is kept as the raw string the
schema receives, so that the schema's `z.enum` check is not vacuous. -/
structure AnalyzeRawInput where
  mode : String
  transcription : Option String := none
  audioDataUri : Option String := none
  question : Option String := none
  perfectAnswer : Option String := none
deriving DecidableEq, Repr

/-- JavaScript `String.prototype.trim`: strips whitespace from both ends.
Modelled structurally over the character list so that it evaluates in the
kernel. -/
def jsTrim (s : String) : String :=
  ⟨((s.data.dropWhile Char.isWhitespace).reverse.dropWhile Char.isWhitespace).reverse⟩

/-- The string sent in the `mode` field for each `AnalysisMode` value. -/
def modeString : AnalysisMode → String
  | .presentation => "presentation"
  | .interview => "interview"
  | .practice => "practice"

/-- Acceptance by `AnalyzeInputSchema` of `schemas.ts`: every field other
than `mode` is an optional string, and `mode` must be one of the three
enum literals. -/
def analyzeInputSchemaAccepts (r : AnalyzeRawInput) : Bool :=
  r.mode == "interview" || r.mode == "presentation" || r.mode == "practice"

/-- Outcome of one run of `handleAnalyze` in `page.tsx` up to the remote
call: either an early return with the validation toast raised, or the
invocation of the remote `analyze` flow with the assembled request. -/
inductive PageAnalyzeStep where
  | rejected (title description : String)
  | callAnalyze (input : AnalyzeRawInput)
deriving DecidableEq, Repr

/-- Whether a `PageAnalyzeStep` performs the remote inference call. -/
def PageAnalyzeStep.isCall : PageAnalyzeStep → Bool
  | .rejected _ _ => false
  | .callAnalyze _ => true

/-- The validation-and-assembly prefix of `handleAnalyze` in `page.tsx`
(lines 189-242): mode-context checks first, then the per-input-mode
presence checks, then the request record; `enc` models
`FileReader.readAsDataURL` on the audio blob or file contents. -/
def pageHandleAnalyze (enc : String → String) (s : PageState) : PageAnalyzeStep :=
  if s.analysisMode = .interview ∧ jsTrim s.question = "" then
    .rejected "Question is empty." "Please provide the question for interview mode."
  else if s.analysisMode = .practice ∧ jsTrim s.question = "" then
    .rejected "Question is empty." "Please provide the question for practice mode."
  else if s.analysisMode = .practice ∧ jsTrim s.perfectAnswer = "" then
    .rejected "Perfect Answer is empty." "Please provide the perfect answer for practice mode."
  else
    let base : AnalyzeRawInput :=
      { mode := modeString s.analysisMode
        question :=
          if s.analysisMode = .interview ∨ s.analysisMode = .practice then some s.question
          else none
        perfectAnswer :=
          if s.analysisMode = .practice then some s.perfectAnswer else none }
    match s.inputMode with
    | .live =>
        if jsTrim s.transcript = "" then
          .rejected "Your speech is empty." "Please record your speech before analyzing."
        else .callAnalyze { base with transcription := some s.transcript }
    | .audio =>
        match s.audioBlob with
        | none => .rejected "No audio recorded." "Please record an audio file before analyzing."
        | some b => .callAnalyze { base with audioDataUri := some (enc b) }
    | .upload =>
        match s.audioFile with
        | none => .rejected "No file selected." "Please select an audio file before analyzing."
        | some f => .callAnalyze { base with audioDataUri := some (enc f.content) }

/-- Analysis mode of `speech-analysis-client.tsx` (`type AnalysisMode` with
the three "... Mode" string values). -/
inductive ClientMode where
  | presentationMode
  | interviewMode
  | practiceMode
deriving DecidableEq, Repr

/-- The string value carried by each `ClientMode` (sent as the `mode`
field of the `analyzeSpeech` input). -/
def clientModeString : ClientMode → String
  | .presentationMode => "Presentation Mode"
  | .interviewMode => "Interview Mode"
  | .practiceMode => "Practice Mode"

/-- Acquisition tab of `speech-analysis-client.tsx` (`currentTab` is one of
"live", "record", "upload"). -/
inductive ClientTab where
  | live
  | record
  | upload
deriving DecidableEq, Repr

/-- A toast raised in `speech-analysis-client.tsx`; validation toasts there
carry only a title, so the description is optional. -/
structure ClientToast where
  title : String
  description : Option String := none
deriving DecidableEq, Repr

/-- The model output object used by `speech-analysis-client.tsx`
(`AnalyzeSpeechOutput` of `analyze-speech.ts`); opaque to the orchestration
code, which only stores and renders it. -/
structure ClientOutput where
  totalScore : Nat := 0
deriving DecidableEq, Repr

/-- The component state of `SpeechAnalysisClient`: the `useState` hooks the
analyzed claims depend on (audio chunks model the `audioChunksRef`). -/
structure ClientState where
  mode : ClientMode
  question : String
  perfectAnswer : String
  transcript : String
  currentTab : ClientTab
  audioBlob : Option String
  audioURL : Option String
  audioChunks : List String
  analysisResult : Option ClientOutput
  isListening : Bool
  isRecording : Bool
  isLoading : Bool
  isSpeechRecognitionSupported : Bool
deriving DecidableEq, Repr

/-- The request record built by `handleAnalyze` in
`speech-analysis-client.tsx` and checked by `AnalyzeSpeechInputSchema` of
`analyze-speech.ts`: one mandatory `speechSample` string (transcript or
data URI), the mode string, and the optional context fields. -/
structure AnalyzeSpeechRawInput where
  speechSample : String
  mode : String
  question : Option String := none
  perfectAnswer : Option String := none
deriving DecidableEq, Repr

/-- Outcome of one run of `handleAnalyze` in `speech-analysis-client.tsx`
up to the remote call: an early return with the validation toast, or the
invocation of the remote `analyzeSpeech` flow. -/
inductive ClientAnalyzeStep where
  | rejected (title : String)
  | callAnalyzeSpeech (input : AnalyzeSpeechRawInput)
deriving DecidableEq, Repr

/-- Whether a `ClientAnalyzeStep` performs the remote inference call. -/
def ClientAnalyzeStep.isCall : ClientAnalyzeStep → Bool
  | .rejected _ => false
  | .callAnalyzeSpeech _ => true

/-- The validation-and-assembly prefix of `handleAnalyze` in
`speech-analysis-client.tsx` (lines 285-318): input presence is checked
first per tab, then the mode-context fields, then the request record;
`enc` models `fileToDataUri` (a local `FileReader`, not a network call). -/
def clientHandleAnalyze (enc : String → String) (s : ClientState) : ClientAnalyzeStep :=
  let proceed : String → ClientAnalyzeStep := fun sample =>
    if s.mode = .interviewMode ∧ s.question = "" then
      .rejected "Please enter an interview question."
    else if s.mode = .practiceMode ∧ (s.question = "" ∨ s.perfectAnswer = "") then
      .rejected "Please enter both question and perfect answer."
    else
      .callAnalyzeSpeech
        { speechSample := sample
          mode := clientModeString s.mode
          question := if s.question = "" then none else some s.question
          perfectAnswer :=
            if s.perfectAnswer ≠ "" ∧ s.mode = .practiceMode then some s.perfectAnswer
            else none }
  match s.currentTab with
  | .live =>
      if s.transcript = "" then .rejected "No transcription provided."
      else proceed s.transcript
  | .record =>
      match s.audioBlob with
      | none => .rejected "No audio provided."
      | some b => proceed (enc b)
  | .upload =>
      match s.audioBlob with
      | none => .rejected "No audio provided."
      | some b => proceed (enc b)

/-- The mode-context checks of `handleAnalyze` in `page.tsx` all pass. -/
def pageModeFieldsOk (s : PageState) : Prop :=
  ¬(s.analysisMode = .interview ∧ jsTrim s.question = "") ∧
  ¬(s.analysisMode = .practice ∧ jsTrim s.question = "") ∧
  ¬(s.analysisMode = .practice ∧ jsTrim s.perfectAnswer = "")

/-- Some mode-required context field or the captured input is missing for
the `page.tsx` submission (the claim's precondition on that component). -/
def pageMissingRequired (s : PageState) : Prop :=
  (s.analysisMode = .interview ∧ jsTrim s.question = "") ∨
  (s.analysisMode = .practice ∧ (jsTrim s.question = "" ∨ jsTrim s.perfectAnswer = "")) ∨
  (s.inputMode = .live ∧ jsTrim s.transcript = "") ∨
  (s.inputMode = .audio ∧ s.audioBlob = none) ∨
  (s.inputMode = .upload ∧ s.audioFile = none)

/-- Some mode-required context field or the captured input is missing for
the `speech-analysis-client.tsx` submission. -/
def clientMissingRequired (s : ClientState) : Prop :=
  (s.currentTab = .live ∧ s.transcript = "") ∨
  ((s.currentTab = .record ∨ s.currentTab = .upload) ∧ s.audioBlob = none) ∨
  (s.mode = .interviewMode ∧ s.question = "") ∨
  (s.mode = .practiceMode ∧ (s.question = "" ∨ s.perfectAnswer = ""))

/-- A neutral concrete `page.tsx` component state used by witnesses. -/
def basePageState : PageState :=
  { analysisMode := .presentation, inputMode := .live, question := "",
    perfectAnswer := "", transcript := "", audioBlob := none,
    audioFile := none, audioUrl := none, analysisResult := none,
    isAnalyzing := false, isLiveRecording := false,
    isAudioRecording := false, isSupported := true }

/-- A neutral concrete `speech-analysis-client.tsx` component state used by
witnesses. -/
def baseClientState : ClientState :=
  { mode := .presentationMode, question := "", perfectAnswer := "",
    transcript := "", currentTab := .live, audioBlob := none,
    audioURL := none, audioChunks := [], analysisResult := none,
    isListening := false, isRecording := false, isLoading := false,
    isSpeechRecognitionSupported := true }

/-- The description of the page failure toast: `error.message ||` a
generic fallback text (JS `||` takes the fallback on an empty message). -/
def pageFailDescription (msg : String) : String :=
  if msg = "" then "Could not analyze the speech. Please try again." else msg

/-- The remote-call phase of `handleAnalyze` in `page.tsx` (lines 245-264),
given the outcome of the awaited `analyze` call: returns the state at the
moment of the call, the final state, and the toasts raised.  The
try-block stores the result and backfills the transcript; the catch-block
raises the failure toast and resets the result; the finally-block clears
the loading flag. -/
def pageRunAnalyze (outcome : Except String PageOutput) (s : PageState) :
    PageState × PageState × List PageToast :=
  let s1 := { s with isAnalyzing := true }
  let s2 := { s1 with analysisResult := none }
  match outcome with
  | .ok r =>
      let s3 := { s2 with analysisResult := some r }
      let s4 :=
        match r.transcription with
        | some t => if t ≠ "" ∧ s.transcript = "" then { s3 with transcript := t } else s3
        | none => s3
      (s2, { s4 with isAnalyzing := false }, [])
  | .error msg =>
      (s2, { s2 with analysisResult := none, isAnalyzing := false },
        [{ title := "Analysis Failed", description := pageFailDescription msg }])

/-- The remote-call phase of `handleAnalyze` in
`speech-analysis-client.tsx` (lines 310-329), given the outcome of the
awaited `analyzeSpeech` call: state at the call, final state, toasts. -/
def clientRunAnalyze (outcome : Except String ClientOutput) (s : ClientState) :
    ClientState × ClientState × List ClientToast :=
  let s1 := { s with isLoading := true }
  let s2 := { s1 with analysisResult := none }
  match outcome with
  | .ok r => (s2, { s2 with analysisResult := some r, isLoading := false }, [])
  | .error _ =>
      (s2, { s2 with isLoading := false },
        [{ title := "Analysis Failed",
           description := some "Something went wrong. Please try again." }])

/-- `resetStateForMode` of `page.tsx` (lines 426-433): run on every change
of the acquisition tab; sets the new input mode and clears audio URL,
audio blob, audio file, transcript and analysis result. -/
def resetStateForMode (m : InputMode) (s : PageState) : PageState :=
  { s with
    inputMode := m
    audioUrl := none
    audioBlob := none
    audioFile := none
    transcript := ""
    analysisResult := none }

/-- `clearAudio` of `speech-analysis-client.tsx` (lines 264-275): drops the
audio blob, revokes and drops the object URL, clears the file input, stops
an in-progress recording, and empties the chunk buffer. -/
def clientClearAudio (s : ClientState) : ClientState :=
  let s1 := { s with audioBlob := none, audioURL := none }
  let s2 := if s1.isRecording then { s1 with isRecording := false } else s1
  { s2 with audioChunks := [] }

/-- The `onValueChange` handler of the acquisition `Tabs` in
`speech-analysis-client.tsx` (line 347): `clearAudio()`, clear the
transcript, then set the new tab. -/
def clientTabSwitch (v : ClientTab) (s : ClientState) : ClientState :=
  let s1 := clientClearAudio s
  let s2 := { s1 with transcript := "" }
  { s2 with currentTab := v }

/-- JavaScript `String.prototype.startsWith`: `jsStartsWith s p` is
`s.startsWith(p)`, modelled as list-prefix over the characters. -/
def jsStartsWith (s p : String) : Bool :=
  p.data.isPrefixOf s.data

/-- `handleFileSelect` of `page.tsx` (lines 169-187): a selected file is
taken as the upload payload only when `file.type.startsWith('audio/')`;
otherwise an "Invalid File Type" toast is raised and no state changes.
`objUrl` models `URL.createObjectURL`. -/
def pageHandleFileSelect (objUrl : JsFile → String) (f : Option JsFile) (s : PageState) :
    PageState × List PageToast :=
  match f with
  | none => (s, [])
  | some file =>
      if jsStartsWith file.mime "audio/" then
        ({ s with
            audioFile := some file
            audioUrl := some (objUrl file)
            audioBlob := none
            transcript := ""
            analysisResult := none }, [])
      else
        (s, [{ title := "Invalid File Type",
               description := "Please select a valid audio file." }])

/-- `handleFileChange` of `speech-analysis-client.tsx` (lines 254-262): any
selected file is accepted as the audio blob after `clearAudio()`, with no
MIME-type check and no toast. -/
def clientHandleFileChange (objUrl : JsFile → String) (f : Option JsFile) (s : ClientState) :
    ClientState × List ClientToast :=
  match f with
  | none => (s, [])
  | some file =>
      let s1 := clientClearAudio s
      let s2 := { s1 with
        audioBlob := some file.content
        audioURL := some (objUrl file) }
      ({ s2 with currentTab := .upload }, [])

/-- `recognition.onerror` of `page.tsx` (lines 84-95): the transient errors
`network`, `no-speech` and `audio-capture` are returned from silently; any
other error raises a toast and stops the listening session. -/
def pageRecognitionOnError (err : String) (s : PageState) : PageState × List PageToast :=
  if err = "network" ∨ err = "no-speech" ∨ err = "audio-capture" then (s, [])
  else
    ({ s with isLiveRecording := false },
     [{ title := "Speech Recognition Error", description := "An error occurred: " ++ err }])

/-- `recognition.onerror` of `speech-analysis-client.tsx` (lines 166-174):
every error, transient or not, stops the listening session and raises a
toast. -/
def clientRecognitionOnError (err : String) (s : ClientState) : ClientState × List ClientToast :=
  ({ s with isListening := false },
   [{ title := "Speech Recognition Error", description := some ("Error: " ++ err) }])

/-- Disabled state of the live-transcription button in `page.tsx`
(line 475): `!isSupported || isAnalyzing || isAudioRecording`. -/
def pageLiveDisabled (s : PageState) : Bool :=
  !s.isSupported || s.isAnalyzing || s.isAudioRecording

/-- Disabled state of the audio-recording button in `page.tsx`
(line 509): `isAnalyzing || isLiveRecording`. -/
def pageRecordDisabled (s : PageState) : Bool :=
  s.isAnalyzing || s.isLiveRecording

/-- Events of the `page.tsx` capture state machine that touch the two
acquisition flags: the two button presses (a disabled button ignores the
press; a denied microphone leaves recording off), the recognition
session ending, and a recognition error. -/
inductive PageEvent where
  | pressLive
  | pressRecord (micGranted : Bool)
  | recognitionEnded
  | recognitionError (err : String)
deriving DecidableEq, Repr

/-- One step of the `page.tsx` capture state machine:
`handleToggleLiveRecording` (lines 114-126), `handleToggleAudioRecording`
(lines 128-167), `recognition.onend` (lines 97-99), `recognition.onerror`
(lines 84-95); a press on a disabled control is a no-op. -/
def pageStep (e : PageEvent) (s : PageState) : PageState :=
  match e with
  | .pressLive =>
      if pageLiveDisabled s then s
      else if s.isLiveRecording then { s with isLiveRecording := false }
      else { s with transcript := "", analysisResult := none, isLiveRecording := true }
  | .pressRecord granted =>
      if pageRecordDisabled s then s
      else if s.isAudioRecording then { s with isAudioRecording := false }
      else if granted then
        { s with
          audioUrl := none
          audioBlob := none
          audioFile := none
          analysisResult := none
          transcript := ""
          isAudioRecording := true }
      else s
  | .recognitionEnded => { s with isLiveRecording := false }
  | .recognitionError err => (pageRecognitionOnError err s).1

/-- At most one acquisition mode is active in a `page.tsx` state. -/
def pageExclusive (s : PageState) : Prop :=
  ¬(s.isLiveRecording = true ∧ s.isAudioRecording = true)

/-- `handleToggleListening` of `speech-analysis-client.tsx` (lines
186-195); a press is ignored when the button is disabled
(no speech-recognition support, line 396). -/
def clientHandleToggleListening (s : ClientState) : ClientState :=
  if !s.isSpeechRecognitionSupported then s
  else if s.isListening then { s with isListening := false }
  else { s with transcript := "", isListening := true }

/-- `startRecording` of `speech-analysis-client.tsx` (lines 197-225): on a
granted microphone the chunk buffer is reset and recording starts; a
denied microphone only raises a toast. -/
def clientStartRecording (granted : Bool) (s : ClientState) : ClientState :=
  if granted then { s with audioChunks := [], isRecording := true } else s

/-- `handleToggleRecording` of `speech-analysis-client.tsx` (lines
234-241): stop when recording, otherwise `clearAudio()` then start.  The
button carries no disabled condition at all (line 423). -/
def clientHandleToggleRecording (granted : Bool) (s : ClientState) : ClientState :=
  if s.isRecording then { s with isRecording := false }
  else clientStartRecording granted (clientClearAudio s)

/-- Disabled state of the live-transcription button in
`speech-analysis-client.tsx` (line 396): only `!isSpeechRecognitionSupported`. -/
def clientLiveButtonDisabled (s : ClientState) : Bool :=
  !s.isSpeechRecognitionSupported

/-- A zod number schema as used in `schemas.ts` and `analyze-speech.ts`:
optional `.min(...)` and `.max(...)` bounds and an `.int()` flag.  JSON
numbers are modelled as rationals. -/
structure ZodNumber where
  minB : Option ℚ := none
  maxB : Option ℚ := none
  isInt : Bool := false
deriving Repr

/-- Validation of a number against a zod number schema: each declared
bound must hold, and an `.int()` schema additionally requires an integral
value (denominator 1). -/
def ZodNumber.accepts (z : ZodNumber) (q : ℚ) : Bool :=
  (match z.minB with
    | none => true
    | some m => decide (m ≤ q)) &&
  (match z.maxB with
    | none => true
    | some m => decide (q ≤ m)) &&
  (!z.isInt || q.den == 1)

/-- The `score` schema of `EvaluationCriterionSchema` in `schemas.ts`
(line 10): `z.number().min(0).max(10)` — no `.int()`. -/
def criterionScoreSchema : ZodNumber := { minB := some 0, maxB := some 10 }

/-- The per-criterion `score` schema inside `AnalyzeSpeechOutputSchema` of
`analyze-speech.ts` (lines 135-139): `z.number().min(0).max(10)` — no
`.int()`. -/
def speechCriterionScoreSchema : ZodNumber := { minB := some 0, maxB := some 10 }

/-- The `totalScore` schema of `AnalyzeSpeechOutputSchema` of
`analyze-speech.ts` (lines 157-163): `z.number().min(0).max(100)`. -/
def speechTotalScoreSchema : ZodNumber := { minB := some 0, maxB := some 100 }

/-- The `type` of a highlighted transcription segment
(`HighlightedSegmentSchema` of `analyze-speech.ts`, lines 41-44). -/
inductive SegmentType where
  | default
  | filler
  | pause
deriving DecidableEq, Repr

/-- One segment of the highlighted transcription. -/
structure HighlightedSegment where
  text : String
  type : SegmentType
deriving DecidableEq, Repr

/-- JavaScript `Array.prototype.join(' ')`: the elements interleaved with
single spaces. -/
def joinSpace : List String → String
  | [] => ""
  | [t] => t
  | t :: ts => t ++ " " ++ joinSpace ts

/-- The full transcription text built by the PDF export
(`generatePdfReport`, `pdf.ts` line 64):
`highlightedTranscription.map(s => s.text).join(' ')`. -/
def pdfFullText (segs : List HighlightedSegment) : String :=
  joinSpace (segs.map (fun s => s.text))

/-- The transcription text rendered by `TranscriptionDisplay` (the unnamed
UI component, lines 14-31): each segment is rendered as its text followed
by one space (`{segment.text}{' '}`). -/
def uiRenderedTranscription : List HighlightedSegment → String
  | [] => ""
  | s :: rest => s.text ++ " " ++ uiRenderedTranscription rest

/-- The plain concatenation, in order, of the segments' text fields (the
reconstruction the claim asserts the renderers produce). -/
def concatSegmentTexts : List HighlightedSegment → String
  | [] => ""
  | s :: rest => s.text ++ concatSegmentTexts rest

/-- The size bookkeeping of one `encodeWAV` run (`pdf.ts` lines 187-226):
the allocated buffer length and the two declared size fields; the 32-bit
header stores are taken modulo 2^32 as `DataView.setUint32` does. -/
structure WavEncoding where
  bufferBytes : ℕ
  riffSizeField : ℕ
  dataSizeField : ℕ
deriving DecidableEq, Repr

/-- `encodeWAV` of `pdf.ts`, modelled on the lengths of the sample chunks:
the buffer is allocated as `44 + samples.length * 2 * samples[0].length`
bytes, the RIFF size field is written as `36 + totalSamples * 2` and the
data chunk size field as `totalSamples * 2` where `totalSamples` is the
sum of the chunk lengths.  On an empty chunk list the source dereferences
`samples[0].length` and throws, modelled as `none`. -/
def encodeWAV (_sampleRate : ℕ) (chunks : List ℕ) : Option WavEncoding :=
  match chunks with
  | [] => none
  | c0 :: rest =>
      let total := (c0 :: rest).sum
      some
        { bufferBytes := 44 + (c0 :: rest).length * 2 * c0
          riffSizeField := (36 + total * 2) % 2 ^ 32
          dataSizeField := (total * 2) % 2 ^ 32 }

/-- All described validation failures reject before the remote call. -/
lemma page_missing_no_call (enc : String → String) (s : PageState)
    (h : pageMissingRequired s) : (pageHandleAnalyze enc s).isCall = false := by
  unfold pageHandleAnalyze
  by_cases h1 : s.analysisMode = .interview ∧ jsTrim s.question = ""
  · rw [if_pos h1]; rfl
  by_cases h2 : s.analysisMode = .practice ∧ jsTrim s.question = ""
  · rw [if_neg h1, if_pos h2]; rfl
  by_cases h3 : s.analysisMode = .practice ∧ jsTrim s.perfectAnswer = ""
  · rw [if_neg h1, if_neg h2, if_pos h3]; rfl
  rw [if_neg h1, if_neg h2, if_neg h3]
  rcases h with h | h | h | h | h
  · exact absurd h h1
  · rcases h.2 with hq | hpa
    · exact absurd ⟨h.1, hq⟩ h2
    · exact absurd ⟨h.1, hpa⟩ h3
  · obtain ⟨h4, h5⟩ := h
    simp [h4, h5, PageAnalyzeStep.isCall]
  · obtain ⟨h4, h5⟩ := h
    simp [h4, h5, PageAnalyzeStep.isCall]
  · obtain ⟨h4, h5⟩ := h
    simp [h4, h5, PageAnalyzeStep.isCall]

lemma client_missing_no_call (enc : String → String) (s : ClientState)
    (h : clientMissingRequired s) : (clientHandleAnalyze enc s).isCall = false := by
  unfold clientHandleAnalyze
  rcases h with h | h | h | h
  · obtain ⟨h4, h5⟩ := h
    simp [h4, h5, ClientAnalyzeStep.isCall]
  · rcases h.1 with ht | ht <;> simp [ht, h.2, ClientAnalyzeStep.isCall]
  · obtain ⟨h4, h5⟩ := h
    cases htab : s.currentTab
    · by_cases htr : s.transcript = ""
      · simp [htr, ClientAnalyzeStep.isCall]
      · simp [htr, h4, h5, ClientAnalyzeStep.isCall]
    · cases hb : s.audioBlob
      · simp [ClientAnalyzeStep.isCall]
      · simp [h4, h5, ClientAnalyzeStep.isCall]
    · cases hb : s.audioBlob
      · simp [ClientAnalyzeStep.isCall]
      · simp [h4, h5, ClientAnalyzeStep.isCall]
  · obtain ⟨h4, h5⟩ := h
    cases htab : s.currentTab
    · by_cases htr : s.transcript = ""
      · simp [htr, ClientAnalyzeStep.isCall]
      · by_cases hi : s.mode = .interviewMode ∧ s.question = ""
        · simp [htr, hi, ClientAnalyzeStep.isCall]
        · simp [htr, hi, h4, h5, ClientAnalyzeStep.isCall]
    · cases hb : s.audioBlob
      · simp [ClientAnalyzeStep.isCall]
      · by_cases hi : s.mode = .interviewMode ∧ s.question = ""
        · simp [hi, ClientAnalyzeStep.isCall]
        · simp [hi, h4, h5, ClientAnalyzeStep.isCall]
    · cases hb : s.audioBlob
      · simp [ClientAnalyzeStep.isCall]
      · by_cases hi : s.mode = .interviewMode ∧ s.question = ""
        · simp [hi, ClientAnalyzeStep.isCall]
        · simp [hi, h4, h5, ClientAnalyzeStep.isCall]

/-- C1. In both submission handlers and all three analysis modes, a missing
mode-required context field (question for interview/practice, reference
answer for practice) or missing captured input (no transcript in live mode,
no audio in record/upload mode) makes the handler return with the
corresponding user-facing message without invoking the remote inference
call, and the messages for the distinct failure causes are pairwise
distinct. -/
theorem c1_validation_fails_fast (enc : String → String) (ps : PageState) (cs : ClientState) :
    (pageMissingRequired ps → (pageHandleAnalyze enc ps).isCall = false) ∧
    (ps.analysisMode = .interview → jsTrim ps.question = "" →
      pageHandleAnalyze enc ps =
        .rejected "Question is empty." "Please provide the question for interview mode.") ∧
    (ps.analysisMode = .practice → jsTrim ps.question = "" →
      pageHandleAnalyze enc ps =
        .rejected "Question is empty." "Please provide the question for practice mode.") ∧
    (ps.analysisMode = .practice → jsTrim ps.question ≠ "" → jsTrim ps.perfectAnswer = "" →
      pageHandleAnalyze enc ps =
        .rejected "Perfect Answer is empty." "Please provide the perfect answer for practice mode.") ∧
    (pageModeFieldsOk ps → ps.inputMode = .live → jsTrim ps.transcript = "" →
      pageHandleAnalyze enc ps =
        .rejected "Your speech is empty." "Please record your speech before analyzing.") ∧
    (pageModeFieldsOk ps → ps.inputMode = .audio → ps.audioBlob = none →
      pageHandleAnalyze enc ps =
        .rejected "No audio recorded." "Please record an audio file before analyzing.") ∧
    (pageModeFieldsOk ps → ps.inputMode = .upload → ps.audioFile = none →
      pageHandleAnalyze enc ps =
        .rejected "No file selected." "Please select an audio file before analyzing.") ∧
    (clientMissingRequired cs → (clientHandleAnalyze enc cs).isCall = false) ∧
    (cs.currentTab = .live → cs.transcript = "" →
      clientHandleAnalyze enc cs = .rejected "No transcription provided.") ∧
    ((cs.currentTab = .record ∨ cs.currentTab = .upload) → cs.audioBlob = none →
      clientHandleAnalyze enc cs = .rejected "No audio provided.") ∧
    (cs.currentTab = .live → cs.transcript ≠ "" → cs.mode = .interviewMode → cs.question = "" →
      clientHandleAnalyze enc cs = .rejected "Please enter an interview question.") ∧
    (cs.currentTab = .live → cs.transcript ≠ "" → cs.mode = .practiceMode →
      (cs.question = "" ∨ cs.perfectAnswer = "") →
      clientHandleAnalyze enc cs = .rejected "Please enter both question and perfect answer.") ∧
    ([("Question is empty.", "Please provide the question for interview mode."),
      ("Question is empty.", "Please provide the question for practice mode."),
      ("Perfect Answer is empty.", "Please provide the perfect answer for practice mode."),
      ("Your speech is empty.", "Please record your speech before analyzing."),
      ("No audio recorded.", "Please record an audio file before analyzing."),
      ("No file selected.", "Please select an audio file before analyzing.")]
        : List (String × String)).Pairwise (· ≠ ·) ∧
    (["No transcription provided.", "No audio provided.",
      "Please enter an interview question.",
      "Please enter both question and perfect answer."] : List String).Pairwise (· ≠ ·) := by
  refine ⟨page_missing_no_call enc ps, ?_, ?_, ?_, ?_, ?_, ?_,
    client_missing_no_call enc cs, ?_, ?_, ?_, ?_, by decide, by decide⟩
  · intro h1 h2
    unfold pageHandleAnalyze
    rw [if_pos ⟨h1, h2⟩]
  · intro h1 h2
    unfold pageHandleAnalyze
    rw [if_neg (by simp [h1]), if_pos ⟨h1, h2⟩]
  · intro h1 h2 h3
    unfold pageHandleAnalyze
    rw [if_neg (by simp [h1, h2]), if_neg (by simp [h2]), if_pos ⟨h1, h3⟩]
  · intro hok h1 h2
    unfold pageHandleAnalyze
    rw [if_neg hok.1, if_neg hok.2.1, if_neg hok.2.2]
    simp [h1, h2]
  · intro hok h1 h2
    unfold pageHandleAnalyze
    rw [if_neg hok.1, if_neg hok.2.1, if_neg hok.2.2]
    simp [h1, h2]
  · intro hok h1 h2
    unfold pageHandleAnalyze
    rw [if_neg hok.1, if_neg hok.2.1, if_neg hok.2.2]
    simp [h1, h2]
  · intro h1 h2
    unfold clientHandleAnalyze
    simp [h1, h2]
  · intro h1 h2
    rcases h1 with h1 | h1 <;> (unfold clientHandleAnalyze; simp [h1, h2])
  · intro h1 h2 h3 h4
    unfold clientHandleAnalyze
    simp [h1, h2, h3, h4]
  · intro h1 h2 h3 h4
    unfold clientHandleAnalyze
    rcases h4 with h4 | h4 <;> simp [h1, h2, h3, h4]

/-- Witness for C1: a concrete page-side interview submission with an empty
question is rejected with its message, and a concrete client-side live
submission with no transcript is rejected with its message. -/
theorem c1_validation_fails_fast_witness :
    pageHandleAnalyze id { basePageState with analysisMode := .interview, transcript := "hi" } =
      .rejected "Question is empty." "Please provide the question for interview mode." ∧
    clientHandleAnalyze id baseClientState = .rejected "No transcription provided." :=
  ⟨(c1_validation_fails_fast id
      { basePageState with analysisMode := .interview, transcript := "hi" }
      baseClientState).2.1 rfl (by decide),
   (c1_validation_fails_fast id
      { basePageState with analysisMode := .interview, transcript := "hi" }
      baseClientState).2.2.2.2.2.2.2.2.1 rfl rfl⟩

/-- C3. Every request the `page.tsx` submission handler actually sends to
the remote `analyze` flow carries exactly one of the `transcription` field
and the `audioDataUri` field, and is accepted by `AnalyzeInputSchema`. -/
theorem c3_exactly_one_payload (enc : String → String) (s : PageState) (inp : AnalyzeRawInput)
    (h : pageHandleAnalyze enc s = .callAnalyze inp) :
    ((inp.transcription.isSome = true ∧ inp.audioDataUri = none) ∨
      (inp.transcription = none ∧ inp.audioDataUri.isSome = true)) ∧
    analyzeInputSchemaAccepts inp = true := by
  unfold pageHandleAnalyze at h
  by_cases h1 : s.analysisMode = .interview ∧ jsTrim s.question = ""
  · rw [if_pos h1] at h; exact absurd h (by simp)
  rw [if_neg h1] at h
  by_cases h2 : s.analysisMode = .practice ∧ jsTrim s.question = ""
  · rw [if_pos h2] at h; exact absurd h (by simp)
  rw [if_neg h2] at h
  by_cases h3 : s.analysisMode = .practice ∧ jsTrim s.perfectAnswer = ""
  · rw [if_pos h3] at h; exact absurd h (by simp)
  rw [if_neg h3] at h
  cases him : s.inputMode
  · rw [him] at h
    dsimp only at h
    by_cases ht : jsTrim s.transcript = ""
    · simp [ht] at h
    · rw [if_neg ht] at h
      injection h with h4
      subst h4
      refine ⟨Or.inl ⟨rfl, rfl⟩, ?_⟩
      cases s.analysisMode <;> rfl
  · rw [him] at h
    dsimp only at h
    cases hb : s.audioBlob
    · rw [hb] at h
      exact absurd h (by simp)
    · rw [hb] at h
      injection h with h4
      subst h4
      refine ⟨Or.inr ⟨rfl, rfl⟩, ?_⟩
      cases s.analysisMode <;> rfl
  · rw [him] at h
    dsimp only at h
    cases hf : s.audioFile
    · rw [hf] at h
      exact absurd h (by simp)
    · rw [hf] at h
      injection h with h4
      subst h4
      refine ⟨Or.inr ⟨rfl, rfl⟩, ?_⟩
      cases s.analysisMode <;> rfl

/-- Witness for C3: the concrete live-mode submission with transcript
"hi" sends transcription only, and it passes the input schema. -/
theorem c3_exactly_one_payload_witness :
    ((((AnalyzeRawInput.mk "presentation" (some "hi") none none none).transcription.isSome = true ∧
        (AnalyzeRawInput.mk "presentation" (some "hi") none none none).audioDataUri = none) ∨
      ((AnalyzeRawInput.mk "presentation" (some "hi") none none none).transcription = none ∧
        (AnalyzeRawInput.mk "presentation" (some "hi") none none none).audioDataUri.isSome = true)) ∧
      analyzeInputSchemaAccepts (AnalyzeRawInput.mk "presentation" (some "hi") none none none) = true) :=
  c3_exactly_one_payload id { basePageState with transcript := "hi" }
    (AnalyzeRawInput.mk "presentation" (some "hi") none none none) (by decide)

/-- C2. In both orchestrators, the prior analysis result is cleared before
the remote call (the state at the call has a `none` result whatever the
prior state), and on any failing call the final rendered result is still
`none` while exactly one failure toast is raised. -/
theorem c2_failure_clears_results (outcome : Except String PageOutput)
    (coutcome : Except String ClientOutput) (ps : PageState) (cs : ClientState) :
    (pageRunAnalyze outcome ps).1.analysisResult = none ∧
    (clientRunAnalyze coutcome cs).1.analysisResult = none ∧
    (∀ msg, outcome = .error msg →
      (pageRunAnalyze outcome ps).2.1.analysisResult = none ∧
      (pageRunAnalyze outcome ps).2.2 =
        [{ title := "Analysis Failed", description := pageFailDescription msg }]) ∧
    (∀ msg, coutcome = .error msg →
      (clientRunAnalyze coutcome cs).2.1.analysisResult = none ∧
      (clientRunAnalyze coutcome cs).2.2 =
        [{ title := "Analysis Failed",
           description := some "Something went wrong. Please try again." }]) := by
  refine ⟨?_, ?_, ?_, ?_⟩
  · cases outcome with
    | ok r => rfl
    | error msg => rfl
  · cases coutcome with
    | ok r => rfl
    | error msg => rfl
  · intro msg hmsg
    subst hmsg
    exact ⟨rfl, rfl⟩
  · intro msg hmsg
    subst hmsg
    exact ⟨rfl, rfl⟩

/-- Witness for C2: a concrete failing page call and a concrete failing
client call both end with a cleared result and the single failure toast. -/
theorem c2_failure_clears_results_witness :
    (pageRunAnalyze (.error "boom") basePageState).2.1.analysisResult = none ∧
    (pageRunAnalyze (.error "boom") basePageState).2.2 =
      [{ title := "Analysis Failed", description := pageFailDescription "boom" }] ∧
    (clientRunAnalyze (.error "down") baseClientState).2.1.analysisResult = none := by
  refine ⟨?_, ?_, ?_⟩
  · exact ((c2_failure_clears_results (.error "boom") (.error "down")
      basePageState baseClientState).2.2.1 "boom" rfl).1
  · exact ((c2_failure_clears_results (.error "boom") (.error "down")
      basePageState baseClientState).2.2.1 "boom" rfl).2
  · exact ((c2_failure_clears_results (.error "boom") (.error "down")
      basePageState baseClientState).2.2.2 "down" rfl).1

/-- C5. Switching the acquisition tab clears the transcript and the audio
state of the previously active mode in both components, for every prior
state: afterwards the transcript is empty and every audio holder is
`none`. -/
theorem c5_tab_switch_clears_state (m : InputMode) (v : ClientTab)
    (ps : PageState) (cs : ClientState) :
    (resetStateForMode m ps).transcript = "" ∧
    (resetStateForMode m ps).audioBlob = none ∧
    (resetStateForMode m ps).audioFile = none ∧
    (resetStateForMode m ps).audioUrl = none ∧
    (resetStateForMode m ps).analysisResult = none ∧
    (resetStateForMode m ps).inputMode = m ∧
    (clientTabSwitch v cs).transcript = "" ∧
    (clientTabSwitch v cs).audioBlob = none ∧
    (clientTabSwitch v cs).audioURL = none ∧
    (clientTabSwitch v cs).audioChunks = [] ∧
    (clientTabSwitch v cs).currentTab = v := by
  unfold clientTabSwitch clientClearAudio resetStateForMode
  by_cases hr : cs.isRecording <;>
    simp [hr]

/-- Counterexample to C6: in `speech-analysis-client.tsx`, a selected file
whose MIME type is `text/plain` is nevertheless accepted as the audio
payload and no user-visible notice is raised, contradicting the claim that
a file is accepted if and only if its MIME type denotes audio and that a
non-audio file is rejected with a notice. -/
theorem c6_counterexample :
    jsStartsWith (JsFile.mk "notes.txt" "text/plain" "hello").mime "audio/" = false ∧
    (clientHandleFileChange (fun f => "blob:" ++ f.name)
        (some (JsFile.mk "notes.txt" "text/plain" "hello")) baseClientState).1.audioBlob =
      some "hello" ∧
    (clientHandleFileChange (fun f => "blob:" ++ f.name)
        (some (JsFile.mk "notes.txt" "text/plain" "hello")) baseClientState).2 = [] := by
  refine ⟨by decide, rfl, rfl⟩

/-- C6 (amended). In `page.tsx` a chosen file is accepted as the audio
payload iff its MIME type starts with `audio/`; a non-audio file is
rejected with the "Invalid File Type" notice and leaves the whole state
unchanged.  In `speech-analysis-client.tsx` every chosen file is accepted
as the audio payload with no MIME validation and no notice. -/
theorem c6_upload_mime_validation (objUrl : JsFile → String) (f : JsFile)
    (ps : PageState) (cs : ClientState) :
    (jsStartsWith f.mime "audio/" = true →
      pageHandleFileSelect objUrl (some f) ps =
        ({ ps with
            audioFile := some f
            audioUrl := some (objUrl f)
            audioBlob := none
            transcript := ""
            analysisResult := none }, [])) ∧
    (jsStartsWith f.mime "audio/" = false →
      pageHandleFileSelect objUrl (some f) ps =
        (ps, [{ title := "Invalid File Type",
                description := "Please select a valid audio file." }])) ∧
    ((clientHandleFileChange objUrl (some f) cs).1.audioBlob = some f.content ∧
      (clientHandleFileChange objUrl (some f) cs).1.audioURL = some (objUrl f) ∧
      (clientHandleFileChange objUrl (some f) cs).2 = []) := by
  refine ⟨?_, ?_, ?_, ?_, ?_⟩
  · intro h
    unfold pageHandleFileSelect
    dsimp only
    rw [if_pos h]
  · intro h
    unfold pageHandleFileSelect
    dsimp only
    rw [if_neg (by simp [h])]
  · rfl
  · rfl
  · rfl

/-- Witness for C6: a concrete audio file is accepted by the page handler,
a concrete text file is rejected there with the notice. -/
theorem c6_upload_mime_validation_witness :
    pageHandleFileSelect (fun f => "blob:" ++ f.name)
        (some (JsFile.mk "talk.wav" "audio/wav" "RIFF")) basePageState =
      ({ basePageState with
          audioFile := some (JsFile.mk "talk.wav" "audio/wav" "RIFF")
          audioUrl := some "blob:talk.wav"
          audioBlob := none
          transcript := ""
          analysisResult := none }, []) ∧
    pageHandleFileSelect (fun f => "blob:" ++ f.name)
        (some (JsFile.mk "notes.txt" "text/plain" "hello")) basePageState =
      (basePageState, [{ title := "Invalid File Type",
                         description := "Please select a valid audio file." }]) :=
  ⟨(c6_upload_mime_validation (fun f => "blob:" ++ f.name)
      (JsFile.mk "talk.wav" "audio/wav" "RIFF") basePageState baseClientState).1 (by decide),
   (c6_upload_mime_validation (fun f => "blob:" ++ f.name)
      (JsFile.mk "notes.txt" "text/plain" "hello") basePageState baseClientState).2.1 (by decide)⟩

/-- Counterexample to C7: in `speech-analysis-client.tsx`, the recoverable
transient error `no-speech` raises a user-visible toast and stops the
listening session instead of being silently ignored. -/
theorem c7_counterexample :
    (clientRecognitionOnError "no-speech" { baseClientState with isListening := true }).2 ≠ [] ∧
    (clientRecognitionOnError "no-speech" { baseClientState with isListening := true }).1.isListening
      = false := by
  exact ⟨by decide, rfl⟩

/-- C7 (amended). In `page.tsx`, a transient recognition error (`no-speech`,
`network`, `audio-capture`) is silently ignored (state and toasts
untouched) and any other error raises a notice and stops the session; in
`speech-analysis-client.tsx`, every recognition error, transient included,
raises a notice and stops the session. -/
theorem c7_recognition_error_handling (err : String) (ps : PageState) (cs : ClientState) :
    ((err = "network" ∨ err = "no-speech" ∨ err = "audio-capture") →
      pageRecognitionOnError err ps = (ps, [])) ∧
    (¬(err = "network" ∨ err = "no-speech" ∨ err = "audio-capture") →
      pageRecognitionOnError err ps =
        ({ ps with isLiveRecording := false },
         [{ title := "Speech Recognition Error",
            description := "An error occurred: " ++ err }])) ∧
    clientRecognitionOnError err cs =
      ({ cs with isListening := false },
       [{ title := "Speech Recognition Error",
          description := some ("Error: " ++ err) }]) := by
  refine ⟨?_, ?_, rfl⟩
  · intro h
    unfold pageRecognitionOnError
    rw [if_pos h]
  · intro h
    unfold pageRecognitionOnError
    rw [if_neg h]

/-- Witness for C7: `no-speech` is swallowed by the page handler, and the
fatal `not-allowed` error raises the page notice and stops the session. -/
theorem c7_recognition_error_handling_witness :
    pageRecognitionOnError "no-speech" basePageState = (basePageState, []) ∧
    pageRecognitionOnError "not-allowed" { basePageState with isLiveRecording := true } =
      ({ basePageState with isLiveRecording := false },
       [{ title := "Speech Recognition Error",
          description := "An error occurred: " ++ "not-allowed" }]) :=
  ⟨(c7_recognition_error_handling "no-speech" basePageState baseClientState).1
      (Or.inr (Or.inl rfl)),
   (c7_recognition_error_handling "not-allowed"
      { basePageState with isLiveRecording := true } baseClientState).2.1 (by decide)⟩

lemma pageStep_exclusive (e : PageEvent) (s : PageState) (h : pageExclusive s) :
    pageExclusive (pageStep e s) := by
  cases e with
  | pressLive =>
      unfold pageStep
      by_cases hd : pageLiveDisabled s = true
      · simp only [hd, if_true]
        exact h
      · have hdf : pageLiveDisabled s = false := by
          revert hd
          cases pageLiveDisabled s <;> simp
        have haud : s.isAudioRecording = false := by
          unfold pageLiveDisabled at hdf
          revert hdf
          cases s.isAudioRecording <;> simp
        simp only [hdf, Bool.false_eq_true, if_false]
        by_cases hl : s.isLiveRecording = true
        · simp [hl, pageExclusive]
        · simp [hl, pageExclusive, haud]
  | pressRecord granted =>
      unfold pageStep
      by_cases hd : pageRecordDisabled s = true
      · simp only [hd, if_true]
        exact h
      · have hdf : pageRecordDisabled s = false := by
          revert hd
          cases pageRecordDisabled s <;> simp
        have hlive : s.isLiveRecording = false := by
          unfold pageRecordDisabled at hdf
          revert hdf
          cases s.isLiveRecording <;> simp
        simp only [hdf, Bool.false_eq_true, if_false]
        by_cases ha : s.isAudioRecording = true
        · simp [ha, pageExclusive]
        · cases granted
          · simp [ha, pageExclusive, h]
          · simp [ha, pageExclusive, hlive]
  | recognitionEnded =>
      simp [pageStep, pageExclusive]
  | recognitionError err =>
      unfold pageStep pageRecognitionOnError
      by_cases he : err = "network" ∨ err = "no-speech" ∨ err = "audio-capture"
      · simp only [if_pos he]
        exact h
      · simp only [if_neg he]
        simp [pageExclusive]

lemma pageSteps_exclusive (evs : List PageEvent) (s : PageState) (h : pageExclusive s) :
    pageExclusive (evs.foldl (fun t ev => pageStep ev t) s) := by
  induction evs generalizing s with
  | nil => exact h
  | cons e evs ih => exact ih _ (pageStep_exclusive e s h)

/-- Counterexample to C4: in `speech-analysis-client.tsx`, from the idle
supported state, pressing the (enabled) live button and then the (enabled,
rendered, never-disabled) record button leaves both the listening session
and the microphone recording active at once, so the disabled state of the
controls does not prevent starting one capture path while the other is
active. -/
theorem c4_counterexample :
    clientLiveButtonDisabled baseClientState = false ∧
    (clientHandleToggleListening baseClientState).audioURL = none ∧
    (clientHandleToggleRecording true (clientHandleToggleListening baseClientState)).isListening
      = true ∧
    (clientHandleToggleRecording true (clientHandleToggleListening baseClientState)).isRecording
      = true := by
  decide

/-- C4 (amended). In the `page.tsx` component, every state satisfying the
mutual-exclusion invariant still satisfies it after any event, and hence
after any sequence of events: the disabled state of the live and record
controls prevents starting one capture path while the other is active.  In
`speech-analysis-client.tsx` this does not hold (see the counterexample). -/
theorem c4_single_active_acquisition (e : PageEvent) (evs : List PageEvent) (s : PageState)
    (h : pageExclusive s) :
    pageExclusive (pageStep e s) ∧
    pageExclusive (evs.foldl (fun t ev => pageStep ev t) s) :=
  ⟨pageStep_exclusive e s h, pageSteps_exclusive evs s h⟩

/-- Witness for C4: from the idle page state, pressing live then record
leaves at most one acquisition active. -/
theorem c4_single_active_acquisition_witness :
    pageExclusive
      ([PageEvent.pressLive, PageEvent.pressRecord true].foldl
        (fun t ev => pageStep ev t) basePageState) :=
  (c4_single_active_acquisition PageEvent.pressLive
    [PageEvent.pressLive, PageEvent.pressRecord true] basePageState
    (by intro hc; exact absurd hc.1 (by decide))).2

/-- Counterexample to C8: the non-integer score 15/2 = 7.5 is accepted by
the criterion score schema of `schemas.ts` and by the per-criterion score
schema of `analyze-speech.ts`, so the claim that every accepted score is
an integer (and that non-members of {0,...,10} fail validation) is false. -/
theorem c8_counterexample :
    criterionScoreSchema.accepts (mkRat 15 2) = true ∧
    speechCriterionScoreSchema.accepts (mkRat 15 2) = true ∧
    (mkRat 15 2).den ≠ 1 := by
  refine ⟨by decide, by decide, by decide⟩

/-- C8 (amended). The score schemas enforce only the numeric range, not
integrality: a number is accepted by the criterion score schemas of
`schemas.ts` and `analyze-speech.ts` iff it lies in [0, 10], and by the
`analyze-speech.ts` total score schema iff it lies in [0, 100]. -/
theorem c8_score_range (q : ℚ) :
    (criterionScoreSchema.accepts q = true ↔ (0 ≤ q ∧ q ≤ 10)) ∧
    (speechCriterionScoreSchema.accepts q = true ↔ (0 ≤ q ∧ q ≤ 10)) ∧
    (speechTotalScoreSchema.accepts q = true ↔ (0 ≤ q ∧ q ≤ 100)) := by
  refine ⟨?_, ?_, ?_⟩ <;>
    simp [ZodNumber.accepts, criterionScoreSchema, speechCriterionScoreSchema,
      speechTotalScoreSchema]

/-- Counterexample to C9: with the two segments "hello" and "world",
both the PDF export and the UI render "hello world" (with an inserted
space, and a trailing one in the UI), which differs from the plain
concatenation "helloworld" of the segment texts. -/
theorem c9_counterexample :
    pdfFullText [⟨"hello", .default⟩, ⟨"world", .default⟩] ≠
      concatSegmentTexts [⟨"hello", .default⟩, ⟨"world", .default⟩] ∧
    uiRenderedTranscription [⟨"hello", .default⟩, ⟨"world", .default⟩] ≠
      concatSegmentTexts [⟨"hello", .default⟩, ⟨"world", .default⟩] := by
  decide

lemma ui_eq_pdf_append (a : HighlightedSegment) (l : List HighlightedSegment) :
    uiRenderedTranscription (a :: l) = pdfFullText (a :: l) ++ " " := by
  induction l generalizing a with
  | nil => simp [uiRenderedTranscription, pdfFullText, joinSpace]
  | cons b l ih =>
      have hstep :
          uiRenderedTranscription (a :: b :: l) =
            a.text ++ " " ++ uiRenderedTranscription (b :: l) := rfl
      rw [hstep, ih b]
      simp [pdfFullText, joinSpace, String.append_assoc]

/-- C9 (amended). For every non-empty segment list, the two renderers
insert one space after / between segment texts: the UI text equals the PDF
text followed by one trailing space, and both reduce to the segment texts
joined with single spaces; the plain concatenation of the texts is only
reproduced for a single segment (PDF) or a single segment plus its
trailing space (UI). -/
theorem c9_rendered_transcription (segs : List HighlightedSegment)
    (s0 : HighlightedSegment) (h : segs ≠ []) :
    uiRenderedTranscription segs = pdfFullText segs ++ " " ∧
    pdfFullText [s0] = concatSegmentTexts [s0] ∧
    uiRenderedTranscription [s0] = concatSegmentTexts [s0] ++ " " := by
  refine ⟨?_, ?_, ?_⟩
  · cases segs with
    | nil => exact absurd rfl h
    | cons a l => exact ui_eq_pdf_append a l
  · simp [pdfFullText, joinSpace, concatSegmentTexts]
  · simp [uiRenderedTranscription, concatSegmentTexts]

/-- Witness for C9: the two-segment example satisfies the amended
relation between the UI render and the PDF render. -/
theorem c9_rendered_transcription_witness :
    uiRenderedTranscription [⟨"hello", .default⟩, ⟨"world", .default⟩] =
      pdfFullText [⟨"hello", .default⟩, ⟨"world", .default⟩] ++ " " :=
  (c9_rendered_transcription [⟨"hello", .default⟩, ⟨"world", .default⟩]
    ⟨"hello", .default⟩ (by decide)).1

lemma sum_of_uniform (c0 : ℕ) (l : List ℕ) (h : ∀ c ∈ l, c = c0) :
    l.sum = l.length * c0 := by
  induction l with
  | nil => simp
  | cons a l ih =>
      have ha : a = c0 := h a (by simp)
      have hl : l.sum = l.length * c0 := ih (fun c hc => h c (by simp [hc]))
      simp [ha, hl, Nat.succ_mul, Nat.add_comm]

/-- C10. For a non-empty chunk list of uniform chunk length (the recorder
always produces equal-sized chunks, which is what makes the
first-chunk-based allocation meaningful) whose declared RIFF size fits in
32 bits, `encodeWAV` allocates `44 + 2·totalSamples` bytes and declares
`36 + 2·totalSamples` (RIFF) and `2·totalSamples` (data) — mutually
consistent sizes; on the empty chunk list it is undefined. -/
theorem c10_encodeWAV_sizes (sampleRate c0 : ℕ) (chunks rest : List ℕ)
    (hc : chunks = c0 :: rest) (huniform : ∀ c ∈ chunks, c = c0)
    (hsmall : 36 + 2 * chunks.sum < 2 ^ 32) :
    encodeWAV sampleRate chunks =
      some
        { bufferBytes := 44 + 2 * chunks.sum
          riffSizeField := 36 + 2 * chunks.sum
          dataSizeField := 2 * chunks.sum } ∧
    encodeWAV sampleRate [] = none := by
  subst hc
  refine ⟨?_, rfl⟩
  have hsum : (c0 :: rest).sum = (c0 :: rest).length * c0 :=
    sum_of_uniform c0 (c0 :: rest) huniform
  unfold encodeWAV
  refine congrArg some ?_
  have hlen : 44 + (c0 :: rest).length * 2 * c0 = 44 + 2 * (c0 :: rest).sum := by
    rw [hsum]
    ring
  have hriff : (36 + (c0 :: rest).sum * 2) % 2 ^ 32 = 36 + 2 * (c0 :: rest).sum := by
    rw [Nat.mod_eq_of_lt (by omega)]
    ring
  have hdata : ((c0 :: rest).sum * 2) % 2 ^ 32 = 2 * (c0 :: rest).sum := by
    rw [Nat.mod_eq_of_lt (by omega)]
    ring
  rw [WavEncoding.mk.injEq]
  exact ⟨hlen, hriff, hdata⟩

/-- Witness for C10: two chunks of three samples each give a 56-byte
buffer, RIFF size 48 and data size 12. -/
theorem c10_encodeWAV_sizes_witness :
    encodeWAV 44100 [3, 3] =
      some { bufferBytes := 56, riffSizeField := 48, dataSizeField := 12 } ∧
    encodeWAV 44100 [] = none :=
  c10_encodeWAV_sizes 44100 3 [3, 3] [3] rfl (by decide) (by decide)
